import Mathlib

/-!
# Residence Allocation and Booking Workflow Engine — verification

Shallow embedding of the residence/hostel/booking route handlers of the
`student-database` repository (files `src/routes/academic.ts`,
`src/routes/hostels.ts`, `src/routes/residences.ts`, schema in
`src/db/schema.ts`).  The database is modelled as lists of records; each
route handler becomes a pure function from a pre-state (plus request
parameters) to a response paired with a post-state.  Timestamps are
modelled by a `now : Nat` parameter.  JavaScript truthiness on optional
request fields is modelled explicitly.
-/

set_option maxRecDepth 4000

namespace StudentDB

/-- `students` table (only the columns the residence engine reads). -/
structure Student where
  id : Nat
  studentCode : String
  gender : Option String
  deriving Repr, DecidableEq

/-- `hostels` table (columns used by the engine); `gender` is NOT NULL. -/
structure Hostel where
  id : Nat
  name : String
  gender : String
  deriving Repr, DecidableEq

/-- `rooms` table; `capacity`, `currentOccupancy` and `status` are NOT NULL. -/
structure Room where
  id : Nat
  hostelId : Nat
  roomNumber : String
  floor : Option Int
  capacity : Int
  currentOccupancy : Int
  roomType : Option String
  amenities : Option String
  status : String
  deriving Repr, DecidableEq

/-- `residences` table; `student_id` carries a UNIQUE constraint in the schema. -/
structure Residence where
  id : Nat
  studentId : Nat
  residenceType : String
  hostelId : Option Nat
  roomId : Option Nat
  bedNumber : Option String
  offCampusHostelName : Option String
  offCampusRoomNumber : Option String
  offCampusArea : Option String
  allocated : Bool
  allocatedAt : Option Nat
  deriving Repr, DecidableEq

/-- `room_bookings` table. -/
structure Booking where
  id : Nat
  studentId : Nat
  requestType : String
  currentRoomId : Option Nat
  requestedHostelId : Option Nat
  requestedRoomId : Option Nat
  requestedBed : Option String
  requestedOffCampusHostel : Option String
  requestedOffCampusRoom : Option String
  requestedOffCampusArea : Option String
  status : String
  requestedAt : Option Nat
  approvedBy : Option Nat
  approvedAt : Option Nat
  note : Option String
  deriving Repr, DecidableEq

/-- The whole database state touched by the residence engine. -/
structure State where
  students : List Student
  hostels : List Hostel
  rooms : List Room
  residences : List Residence
  bookings : List Booking
  nextResidenceId : Nat
  nextRoomId : Nat
  deriving Repr, DecidableEq

/-- An HTTP-level response: success (`res.json` / `res.status(2xx).json`)
or an error (`res.status(4xx/5xx).json({error})`). -/
inductive Resp (α : Type) where
  | ok (code : Nat) (val : α)
  | err (code : Nat) (msg : String)
  deriving Repr, DecidableEq

def Resp.isOk {α : Type} : Resp α → Bool
  | .ok _ _ => true
  | .err _ _ => false

def Resp.getVal? {α : Type} : Resp α → Option α
  | .ok _ v => some v
  | .err _ _ => none

/-- JavaScript truthiness of a possibly-absent numeric field
(`undefined`/`null`/`0` are falsy). -/
def truthyNat : Option Nat → Bool
  | none => false
  | some n => n != 0

/-- JavaScript truthiness of a possibly-absent string field
(`undefined`/`null`/`""` are falsy). -/
def truthyStr : Option String → Bool
  | none => false
  | some s => s != ""

/-- JavaScript `a || b` on optional strings, as used in
`note: note || booking.note`. -/
def jsOr (a b : Option String) : Option String :=
  match a with
  | none => b
  | some t => if t == "" then b else some t

/-- Drizzle `.set` semantics for a column whose supplied value may be
`undefined`: an `undefined` value is skipped and the row keeps its old value. -/
def jsSetOptNat (newv oldv : Option Nat) : Option Nat :=
  match newv with
  | none => oldv
  | some x => some x

/-- `db.select().from(rooms).where(eq(rooms.id, i))`, first row. -/
def findRoomIn (rooms : List Room) (i : Nat) : Option Room :=
  rooms.find? (fun r => r.id == i)

def findRoom (st : State) (i : Nat) : Option Room :=
  findRoomIn st.rooms i

def findStudent (st : State) (i : Nat) : Option Student :=
  st.students.find? (fun s => s.id == i)

def findHostel (st : State) (i : Nat) : Option Hostel :=
  st.hostels.find? (fun h => h.id == i)

def findBookingIn (bs : List Booking) (i : Nat) : Option Booking :=
  bs.find? (fun b => b.id == i)

def findBooking (st : State) (i : Nat) : Option Booking :=
  findBookingIn st.bookings i

def findResidenceIn (rs : List Residence) (sid : Nat) : Option Residence :=
  rs.find? (fun r => r.studentId == sid)

def findResidenceByStudent (st : State) (sid : Nat) : Option Residence :=
  findResidenceIn st.residences sid

/-- `db.update(rooms).set({currentOccupancy, status}).where(eq(rooms.id, i))`
with constant values. -/
def setRoomFields (rooms : List Room) (i : Nat) (occ : Int) (stat : String) : List Room :=
  rooms.map fun r =>
    if r.id == i then { r with currentOccupancy := occ, status := stat } else r

/-- `db.update(roomBookings).set({status, approvedBy, approvedAt, note})`:
`approvedBy` is skipped when `undefined`; `noteSet = none` means the `note`
column is skipped, `noteSet = some v` sets it to the constant `v`. -/
def setBookingDecision (bs : List Booking) (i : Nat) (s : String) (ab : Option Nat)
    (at_ : Option Nat) (noteSet : Option (Option String)) : List Booking :=
  bs.map fun b =>
    if b.id == i then
      let newNote := match noteSet with | none => b.note | some v => v
      { b with status := s, approvedBy := jsSetOptNat ab b.approvedBy,
               approvedAt := at_, note := newNote }
    else b

/-- `db.update(residences).set({...on-campus fields...}).where(eq(residences.studentId, sid))`
from the booking-approval handler in `hostels.ts`. -/
def setResidenceOnCampus (rs : List Residence) (sid : Nat) (hId rId : Option Nat)
    (bed : Option String) (now : Nat) : List Residence :=
  rs.map fun r =>
    if r.studentId == sid then
      { r with residenceType := "on-campus", hostelId := hId, roomId := rId,
               bedNumber := bed, offCampusHostelName := none, offCampusRoomNumber := none,
               offCampusArea := none, allocatedAt := some now }
    else r

/-- `db.update(residences).set({...off-campus fields...})` from the
booking-approval handler in `hostels.ts`. -/
def setResidenceOffCampus (rs : List Residence) (sid : Nat)
    (hn rn area : Option String) (now : Nat) : List Residence :=
  rs.map fun r =>
    if r.studentId == sid then
      { r with residenceType := "off-campus", hostelId := none, roomId := none,
               bedNumber := none, offCampusHostelName := hn, offCampusRoomNumber := rn,
               offCampusArea := area, allocatedAt := some now }
    else r

/-- The old-room "free up" step of the booking-approval handler
(`hostels.ts` lines 206-216 and 246-256): read the room, then set
`currentOccupancy = Math.max(0, occ - 1)` and
`status = occ - 1 < capacity ? 'available' : status`. -/
def decOldRoomUpdate (rooms : List Room) (oldRoomId : Nat) : List Room :=
  match findRoomIn rooms oldRoomId with
  | none => rooms
  | some oldRoom =>
      setRoomFields rooms oldRoomId (max 0 (oldRoom.currentOccupancy - 1))
        (if oldRoom.currentOccupancy - 1 < oldRoom.capacity then "available" else oldRoom.status)

/-- JavaScript `.toLowerCase()`: character-wise lowercasing.  (This is
extensionally the same as `String.toLower`, written over the character
list so that it reduces in the kernel.) -/
def strToLower (s : String) : String :=
  String.mk (s.data.map Char.toLower)

/-- Gender eligibility test of `academic.ts` POST `/rooms/:roomId/allocate`
(lines 1082-1088): `student.gender?.toLowerCase() !== hostel.gender`;
only the student's side is lowercased. -/
def genderMatches (student : Student) (hostel : Hostel) : Bool :=
  match student.gender with
  | none => false
  | some g => strToLower g == hostel.gender

/-- `academic.ts` POST `/hostels/rooms` (lines 944-964): create a room.
There is no validation of `capacity`; a missing capacity defaults to 2,
`currentOccupancy` starts at 0 and `status` at `"available"`. -/
def createRoom (st : State) (hostelId : Nat) (roomNumber : String) (floor : Option Int)
    (capacity : Option Int) (roomType : Option String) (amenities : Option String) :
    Resp Room × State :=
  let room : Room :=
    { id := st.nextRoomId, hostelId := hostelId, roomNumber := roomNumber, floor := floor,
      capacity := capacity.getD 2, currentOccupancy := 0,
      roomType := some (roomType.getD "double"), amenities := amenities,
      status := "available" }
  (Resp.ok 201 room,
   { st with rooms := st.rooms ++ [room], nextRoomId := st.nextRoomId + 1 })

/-- `academic.ts` POST `/hostels/rooms/:roomId/allocate` (lines 1038-1114):
direct allocation of a student to a room. -/
def allocateStudent (st : State) (now roomId studentId : Nat) (bedNumber : Option String) :
    Resp Residence × State :=
  match findRoom st roomId with
  | none => (Resp.err 404 "Room not found", st)
  | some room =>
    if room.capacity ≤ room.currentOccupancy then
      (Resp.err 400 "Room is full", st)
    else
      match findResidenceByStudent st studentId with
      | some _ => (Resp.err 400 "Student already has a residence allocated", st)
      | none =>
        match findStudent st studentId with
        | none => (Resp.err 404 "Student not found", st)
        | some student =>
          match findHostel st room.hostelId with
          | none => (Resp.err 404 "Hostel not found", st)
          | some hostel =>
            if !(genderMatches student hostel) then
              (Resp.err 400 "Gender mismatch", st)
            else
              let residence : Residence :=
                { id := st.nextResidenceId, studentId := studentId,
                  residenceType := "on-campus", hostelId := some room.hostelId,
                  roomId := some roomId,
                  bedNumber := some (bedNumber.getD
                    (if room.currentOccupancy == 0 then "Bed A" else "Bed B")),
                  offCampusHostelName := none, offCampusRoomNumber := none,
                  offCampusArea := none, allocated := true, allocatedAt := some now }
              let newOcc := room.currentOccupancy + 1
              (Resp.ok 201 residence,
               { st with
                  residences := st.residences ++ [residence],
                  nextResidenceId := st.nextResidenceId + 1,
                  rooms := setRoomFields st.rooms roomId newOcc
                    (if room.capacity ≤ newOcc then "full" else "available") })

/-- `academic.ts` DELETE `/hostels/rooms/:roomId/deallocate/:studentId`
(lines 1137-1169): delete the residence row, then set the room to
`currentOccupancy = Math.max(0, occ - 1)`, `status = 'available'`. -/
def deallocateStudent (st : State) (roomId studentId : Nat) : Resp Unit × State :=
  let isTarget := fun (r : Residence) => r.roomId == some roomId && r.studentId == studentId
  match (st.residences.filter isTarget).head? with
  | none => (Resp.err 404 "Student not found in this room", st)
  | some _ =>
    let remaining := st.residences.filter (fun r => !(isTarget r))
    let st1 := { st with residences := remaining }
    match findRoom st1 roomId with
    | none => (Resp.ok 200 (), st1)
    | some room =>
      let newRooms := setRoomFields st1.rooms roomId (max 0 (room.currentOccupancy - 1)) "available"
      (Resp.ok 200 (), { st1 with rooms := newRooms })

/-- `residences.ts` POST `/` (lines 292-327): create a residence record
directly.  The insert runs against the UNIQUE constraint on
`residences.student_id` (`schema.ts` line 74); a duplicate insert throws,
and the handler's catch block answers 500 `Internal server error`.
Room occupancy is never touched by this route. -/
def createResidence (st : State) (now : Nat) (studentId : Option Nat)
    (residenceType : Option String) (hostelId roomId : Option Nat)
    (bedNumber offHostel offRoom offArea : Option String) : Resp Residence × State :=
  if !(truthyNat studentId && truthyStr residenceType) then
    (Resp.err 400 "Missing required fields", st)
  else
    let sid := studentId.getD 0
    if st.residences.any (fun r => r.studentId == sid) then
      (Resp.err 500 "Internal server error", st)
    else
      let residence : Residence :=
        { id := st.nextResidenceId, studentId := sid,
          residenceType := residenceType.getD "", hostelId := hostelId, roomId := roomId,
          bedNumber := bedNumber, offCampusHostelName := offHostel,
          offCampusRoomNumber := offRoom, offCampusArea := offArea,
          allocated := true, allocatedAt := some now }
      let newResidences := st.residences ++ [residence]
      (Resp.ok 201 residence,
       { st with residences := newResidences, nextResidenceId := st.nextResidenceId + 1 })

/-- `residences.ts` DELETE `/:studentId` (lines 382-399): delete the
residence row.  Room occupancy is never touched by this route. -/
def deleteResidence (st : State) (studentId : Nat) : Resp Residence × State :=
  match (st.residences.filter (fun r => r.studentId == studentId)).head? with
  | none => (Resp.err 404 "Residence not found", st)
  | some r =>
    (Resp.ok 200 r,
     { st with residences := st.residences.filter (fun x => !(x.studentId == studentId)) })

/-- Residence/room side effects of an approval, `hostels.ts` lines 197-271.
`booking` is the row as read before the status update. -/
def applyApprovalEffects (st : State) (now : Nat) (booking : Booking) : State :=
  let currentResidence := findResidenceByStudent st booking.studentId
  let oldRoomIdOpt := currentResidence.bind Residence.roomId
  if truthyNat booking.requestedRoomId then
    let rid := booking.requestedRoomId.getD 0
    let st2 :=
      if booking.requestType == "transfer" && truthyNat oldRoomIdOpt then
        { st with rooms := decOldRoomUpdate st.rooms (oldRoomIdOpt.getD 0) }
      else st
    let movedIn := setResidenceOnCampus st2.residences booking.studentId
      booking.requestedHostelId booking.requestedRoomId booking.requestedBed now
    let st3 := { st2 with residences := movedIn }
    match findRoom st3 rid with
    | none => st3
    | some newRoom =>
      let newStatus :=
        if newRoom.capacity ≤ newRoom.currentOccupancy + 1 then "full" else "available"
      let newRooms := setRoomFields st3.rooms rid (newRoom.currentOccupancy + 1) newStatus
      { st3 with rooms := newRooms }
  else
    let st2 :=
      if truthyNat oldRoomIdOpt then
        { st with rooms := decOldRoomUpdate st.rooms (oldRoomIdOpt.getD 0) }
      else st
    let movedOut := setResidenceOffCampus st2.residences booking.studentId
      booking.requestedOffCampusHostel booking.requestedOffCampusRoom
      booking.requestedOffCampusArea now
    { st2 with residences := movedOut }

/-- `hostels.ts` PUT `/bookings/:id/approve` (lines 171-278): decide a
booking.  The handler validates only the `status` string, never checks the
booking's current state, records the decision first, and then (for an
approval) applies the residence/room side effects. -/
def approveBooking (st : State) (now bookingId : Nat) (status : Option String)
    (approvedBy : Option Nat) (note : Option String) : Resp Booking × State :=
  match status with
  | none => (Resp.err 400 "status must be approved or rejected", st)
  | some s =>
    if !(s == "approved" || s == "rejected") then
      (Resp.err 400 "status must be approved or rejected", st)
    else
      match findBooking st bookingId with
      | none => (Resp.err 404 "Booking not found", st)
      | some booking =>
        let newNote := jsOr note booking.note
        let updatedBooking : Booking :=
          { booking with status := s, approvedBy := jsSetOptNat approvedBy booking.approvedBy,
                         approvedAt := some now, note := newNote }
        let decidedBookings :=
          setBookingDecision st.bookings bookingId s approvedBy (some now) (some newNote)
        let st1 := { st with bookings := decidedBookings }
        if s == "approved" then
          (Resp.ok 200 updatedBooking, applyApprovalEffects st1 now booking)
        else
          (Resp.ok 200 updatedBooking, st1)

/-- `residences.ts` PUT `/bookings/:id/approve` (lines 549-577): the second
decide route.  It requires truthy `status` and `approvedBy`, then
unconditionally overwrites the booking row; it has no residence or room
side effects and no check of the booking's current state. -/
def approveBookingResidences (st : State) (now bookingId : Nat) (status : Option String)
    (approvedBy : Option Nat) (note : Option String) : Resp Booking × State :=
  if !(truthyStr status && truthyNat approvedBy) then
    (Resp.err 400 "status and approvedBy are required", st)
  else
    match findBooking st bookingId with
    | none => (Resp.err 404 "Room booking not found", st)
    | some booking =>
      let s := status.getD ""
      let newNote := match note with | none => booking.note | some t => some t
      let updated : Booking :=
        { booking with status := s, approvedBy := jsSetOptNat approvedBy booking.approvedBy,
                       approvedAt := some now, note := newNote }
      let decidedBookings :=
        setBookingDecision st.bookings bookingId s approvedBy (some now) (note.map some)
      (Resp.ok 200 updated, { st with bookings := decidedBookings })

/-! ## Invariants from the specification -/

/-- Number of on-campus residence rows pointing at a room
(`count of Residence records with kind = on-campus and that roomId`). -/
def onCampusCount (residences : List Residence) (roomId : Nat) : Int :=
  ((residences.filter
    (fun x => x.residenceType == "on-campus" && x.roomId == some roomId)).length : Int)

/-- Spec invariant: `0 ≤ currentOccupancy ≤ capacity` for every room. -/
def occupancyInBounds (st : State) : Prop :=
  ∀ r ∈ st.rooms, 0 ≤ r.currentOccupancy ∧ r.currentOccupancy ≤ r.capacity

/-- The lower half of the bound alone. -/
def nonnegOcc (rooms : List Room) : Prop :=
  ∀ r ∈ rooms, 0 ≤ r.currentOccupancy

/-- Spec invariant: each room's cached `currentOccupancy` equals the number
of on-campus residences referencing it. -/
def occupancyMatches (st : State) : Prop :=
  ∀ r ∈ st.rooms, r.currentOccupancy = onCampusCount st.residences r.id

/-- Primary keys are unique (serial ids). -/
def roomIdsNodup (rooms : List Room) : Prop :=
  (rooms.map Room.id).Nodup

/-! ## Concrete scenarios -/

/-- A male student (as seeded by the repository). -/
def studentA : Student :=
  { id := 1, studentCode := "student001", gender := some "male" }

def hostelMale : Hostel :=
  { id := 1, name := "New Men Dorm", gender := "male" }

/-- Room R1: capacity 1, already occupied by student A. -/
def roomR1 : Room :=
  { id := 1, hostelId := 1, roomNumber := "R1", floor := none, capacity := 1,
    currentOccupancy := 1, roomType := some "single", amenities := none, status := "full" }

/-- Room R3: capacity 1, occupancy 1 — already full. -/
def roomR3 : Room :=
  { id := 3, hostelId := 1, roomNumber := "R3", floor := none, capacity := 1,
    currentOccupancy := 1, roomType := some "single", amenities := none, status := "full" }

/-- Student A's current on-campus residence in R1. -/
def resA : Residence :=
  { id := 1, studentId := 1, residenceType := "on-campus", hostelId := some 1,
    roomId := some 1, bedNumber := some "Bed A", offCampusHostelName := none,
    offCampusRoomNumber := none, offCampusArea := none, allocated := true,
    allocatedAt := some 0 }

/-- A pending transfer request by student A into the full room R3. -/
def bookingTransfer : Booking :=
  { id := 1, studentId := 1, requestType := "transfer", currentRoomId := some 1,
    requestedHostelId := some 1, requestedRoomId := some 3, requestedBed := some "Bed A",
    requestedOffCampusHostel := none, requestedOffCampusRoom := none,
    requestedOffCampusArea := none, status := "pending", requestedAt := some 0,
    approvedBy := none, approvedAt := none, note := none }

/-- Spec §8 scenario: transfer requested into a full room. -/
def stTransferFull : State :=
  { students := [studentA], hostels := [hostelMale], rooms := [roomR1, roomR3],
    residences := [resA], bookings := [bookingTransfer],
    nextResidenceId := 2, nextRoomId := 4 }

/-- Student A's residence when it is off-campus. -/
def resOff : Residence :=
  { id := 1, studentId := 1, residenceType := "off-campus", hostelId := none,
    roomId := none, bedNumber := none, offCampusHostelName := some "Richmond Apartments",
    offCampusRoomNumber := some "A1", offCampusArea := some "Kapsabet",
    allocated := true, allocatedAt := some 0 }

/-- Room R2: capacity 4, empty. -/
def roomR2 : Room :=
  { id := 2, hostelId := 1, roomNumber := "R2", floor := none, capacity := 4,
    currentOccupancy := 0, roomType := some "quad", amenities := none,
    status := "available" }

/-- A pending `new` booking for room R2. -/
def bookingNew : Booking :=
  { id := 1, studentId := 1, requestType := "new", currentRoomId := none,
    requestedHostelId := some 1, requestedRoomId := some 2, requestedBed := some "Bed A",
    requestedOffCampusHostel := none, requestedOffCampusRoom := none,
    requestedOffCampusArea := none, status := "pending", requestedAt := some 0,
    approvedBy := none, approvedAt := none, note := none }

/-- State with a pending `new` booking and an off-campus resident. -/
def stNewBooking : State :=
  { students := [studentA], hostels := [hostelMale], rooms := [roomR2],
    residences := [resOff], bookings := [bookingNew],
    nextResidenceId := 2, nextRoomId := 3 }

/-- The state after the first approval of that booking. -/
def stAfterFirstApproval : State :=
  (approveBooking stNewBooking 100 1 (some "approved") (some 9) none).2

/-- Booking 1 as it stands after its first approval. -/
def bookingNewApproved : Booking :=
  { bookingNew with status := "approved", approvedBy := some 9, approvedAt := some 100 }

/-- A room under maintenance with free beds. -/
def roomMaint : Room :=
  { id := 1, hostelId := 1, roomNumber := "M1", floor := none, capacity := 2,
    currentOccupancy := 0, roomType := some "double", amenities := none,
    status := "maintenance" }

def stMaintenance : State :=
  { students := [studentA], hostels := [hostelMale], rooms := [roomMaint],
    residences := [], bookings := [], nextResidenceId := 1, nextRoomId := 2 }

/-- A student whose declared gender carries an uppercase letter. -/
def studentM : Student :=
  { id := 1, studentCode := "student001", gender := some "Male" }

/-- A hostel whose gender restriction is stored as `"Male"`. -/
def hostelMixedCase : Hostel :=
  { id := 1, name := "New Men Dorm", gender := "Male" }

def roomFree : Room :=
  { id := 1, hostelId := 1, roomNumber := "F1", floor := none, capacity := 2,
    currentOccupancy := 0, roomType := some "double", amenities := none,
    status := "available" }

def stMixedCase : State :=
  { students := [studentM], hostels := [hostelMixedCase], rooms := [roomFree],
    residences := [], bookings := [], nextResidenceId := 1, nextRoomId := 2 }

/-- The empty database. -/
def stEmpty : State :=
  { students := [], hostels := [], rooms := [], residences := [], bookings := [],
    nextResidenceId := 1, nextRoomId := 1 }

/-- A maintenance room with one occupant. -/
def roomMaintOcc : Room :=
  { id := 1, hostelId := 1, roomNumber := "M1", floor := none, capacity := 2,
    currentOccupancy := 1, roomType := some "double", amenities := none,
    status := "maintenance" }

def stDealloc : State :=
  { students := [studentA], hostels := [hostelMale], rooms := [roomMaintOcc],
    residences := [resA], bookings := [], nextResidenceId := 2, nextRoomId := 2 }

/-! ## Helper lemmas about the update primitives -/

/-- `find?` commutes with mapping a function that does not change the
predicate's verdict on any element. -/
theorem find?_map_of_pred_comm {α : Type} (f : α → α) (p : α → Bool)
    (hp : ∀ a, p (f a) = p a) (l : List α) :
    (l.map f).find? p = (l.find? p).map f := by
  induction l with
  | nil => rfl
  | cons a t ih =>
    simp only [List.map_cons, List.find?, hp]
    cases hpa : p a
    · simpa using ih
    · simp

theorem findRoomIn_setRoomFields (rooms : List Room) (i j : Nat) (occ : Int) (s : String) :
    findRoomIn (setRoomFields rooms i occ s) j =
      (findRoomIn rooms j).map
        (fun r => if r.id == i then { r with currentOccupancy := occ, status := s } else r) := by
  apply find?_map_of_pred_comm
  intro a
  by_cases h : (a.id == i) = true <;> simp [h]

theorem findBookingIn_setBookingDecision (bs : List Booking) (i j : Nat) (s : String)
    (ab : Option Nat) (at_ : Option Nat) (noteSet : Option (Option String)) :
    findBookingIn (setBookingDecision bs i s ab at_ noteSet) j =
      (findBookingIn bs j).map (fun b =>
        if b.id == i then
          { b with status := s, approvedBy := jsSetOptNat ab b.approvedBy, approvedAt := at_,
                   note := match noteSet with | none => b.note | some v => v }
        else b) := by
  apply find?_map_of_pred_comm
  intro b
  by_cases h : (b.id == i) = true <;> simp [h]

theorem findResidenceIn_setResidenceOnCampus (rs : List Residence) (sid sid2 : Nat)
    (hId rId : Option Nat) (bed : Option String) (now : Nat) :
    findResidenceIn (setResidenceOnCampus rs sid hId rId bed now) sid2 =
      (findResidenceIn rs sid2).map (fun r =>
        if r.studentId == sid then
          { r with residenceType := "on-campus", hostelId := hId, roomId := rId,
                   bedNumber := bed, offCampusHostelName := none,
                   offCampusRoomNumber := none, offCampusArea := none,
                   allocatedAt := some now }
        else r) := by
  apply find?_map_of_pred_comm
  intro r
  by_cases h : (r.studentId == sid) = true <;> simp [h]

theorem mem_setRoomFields {rooms : List Room} {i : Nat} {occ : Int} {s : String} {r : Room}
    (h : r ∈ setRoomFields rooms i occ s) :
    ∃ r0, r0 ∈ rooms ∧
      r = (if r0.id == i then { r0 with currentOccupancy := occ, status := s } else r0) := by
  simp only [setRoomFields, List.mem_map] at h
  obtain ⟨r0, hr0, heq⟩ := h
  exact ⟨r0, hr0, heq.symm⟩

theorem nonnegOcc_setRoomFields {rooms : List Room} {i : Nat} {occ : Int} {s : String}
    (h : nonnegOcc rooms) (hocc : 0 ≤ occ) : nonnegOcc (setRoomFields rooms i occ s) := by
  intro r hr
  obtain ⟨r0, hr0, rfl⟩ := mem_setRoomFields hr
  by_cases hid : (r0.id == i) = true
  · simpa [hid] using hocc
  · simpa [hid] using h r0 hr0

theorem nonnegOcc_decOldRoomUpdate {rooms : List Room} {i : Nat}
    (h : nonnegOcc rooms) : nonnegOcc (decOldRoomUpdate rooms i) := by
  unfold decOldRoomUpdate
  cases hfind : findRoomIn rooms i with
  | none => exact h
  | some oldRoom => exact nonnegOcc_setRoomFields h (le_max_left 0 _)

theorem eq_of_mem_roomIds_nodup {rooms : List Room} (hn : roomIdsNodup rooms)
    {a b : Room} (ha : a ∈ rooms) (hb : b ∈ rooms) (hid : a.id = b.id) : a = b :=
  List.inj_on_of_nodup_map hn ha hb hid

/-! ## Counterexamples to the claims as stated -/

/-- C1 counterexample: approving student A's transfer into the full room R3
(capacity 1, occupancy 1) does not fail with RoomFull.  The decision is
recorded (`approved`), A's residence is moved to R3, R1's occupancy drops
to 0 and R3's occupancy rises to 2 — every conjunct of the claim is
violated at this input. -/
theorem c1_counterexample :
    (approveBooking stTransferFull 100 1 (some "approved") (some 9) none).1.isOk = true
    ∧ (findBooking (approveBooking stTransferFull 100 1 (some "approved") (some 9) none).2 1).map
        Booking.status = some "approved"
    ∧ ((findResidenceByStudent (approveBooking stTransferFull 100 1 (some "approved")
        (some 9) none).2 1).bind Residence.roomId) = some 3
    ∧ (findRoom (approveBooking stTransferFull 100 1 (some "approved") (some 9) none).2 1).map
        Room.currentOccupancy = some 0
    ∧ (findRoom (approveBooking stTransferFull 100 1 (some "approved") (some 9) none).2 3).map
        Room.currentOccupancy = some 2 := by decide

/-- C2 counterexample: deciding booking 1 a second time after it is already
`approved` does not fail with AlreadyDecided — the second call succeeds and
re-runs the approval side effects, raising room R2's occupancy to 2 even
though only one student lives there. -/
theorem c2_counterexample :
    (findBooking stAfterFirstApproval 1).map Booking.status = some "approved"
    ∧ (findRoom stAfterFirstApproval 2).map Room.currentOccupancy = some 1
    ∧ (approveBooking stAfterFirstApproval 200 1 (some "approved") (some 9) none).1.isOk = true
    ∧ (findRoom (approveBooking stAfterFirstApproval 200 1 (some "approved") (some 9) none).2 2).map
        Room.currentOccupancy = some 2 := by decide

/-- C3 counterexample: a single booking approval drives room R3's occupancy
(capacity 1) to 2, breaking `0 ≤ currentOccupancy ≤ capacity` from a state
where it held. -/
theorem c3_counterexample :
    occupancyInBounds stTransferFull
    ∧ ¬ occupancyInBounds (approveBooking stTransferFull 100 1 (some "approved") (some 9) none).2 := by
  unfold occupancyInBounds
  decide

/-- C4 counterexample: direct allocation into a room whose status is
`maintenance` (with free beds) does not fail with RoomFull — it succeeds
and increments the occupancy. -/
theorem c4_counterexample :
    (findRoom stMaintenance 1).map Room.status = some "maintenance"
    ∧ (allocateStudent stMaintenance 10 1 1 none).1.isOk = true
    ∧ (findRoom (allocateStudent stMaintenance 10 1 1 none).2 1).map Room.currentOccupancy
        = some 1 := by decide

/-- C5 counterexample: student and hostel genders are the identical string
`"Male"` (so they certainly agree up to case), yet the allocation fails
with a gender mismatch, because the handler lowercases only the student's
side before an exact comparison. -/
theorem c5_counterexample :
    studentM.gender = some hostelMixedCase.gender
    ∧ allocateStudent stMixedCase 10 1 1 none = (Resp.err 400 "Gender mismatch", stMixedCase) := by
  decide

/-- C6 counterexample: directly creating an on-campus residence for room 1
leaves the room's cached occupancy at 0 while the count of on-campus
residences for that room becomes 1. -/
theorem c6_counterexample :
    occupancyMatches stMaintenance
    ∧ ¬ occupancyMatches (createResidence stMaintenance 5 (some 1) (some "on-campus")
        (some 1) (some 1) (some "Bed A") none none none).2 := by
  unfold occupancyMatches
  decide

/-- C7 counterexample: a successful allocation into a `maintenance` room
overwrites the manual status with `available` instead of preserving it. -/
theorem c7_counterexample :
    (findRoom stMaintenance 1).map Room.status = some "maintenance"
    ∧ (allocateStudent stMaintenance 10 1 1 none).1.isOk = true
    ∧ (findRoom (allocateStudent stMaintenance 10 1 1 none).2 1).map Room.status
        = some "available" := by decide

/-- C8 counterexample: `createRoom` with capacity 0 (< 1) does not fail
with ValidationError — it succeeds and stores the value 0. -/
theorem c8_counterexample :
    (createRoom stEmpty 1 "101" none (some 0) none none).1.isOk = true
    ∧ ((createRoom stEmpty 1 "101" none (some 0) none none).1.getVal?).map Room.capacity
        = some 0 := by decide

/-! ## Confirmed claims -/

/-- C9: whenever a deallocation succeeds (a matching residence row existed
and the room exists), the room's status is unconditionally set to
`"available"` — in particular a `maintenance` override is lost. -/
theorem c9_dealloc_forces_available (st : State) (roomId studentId : Nat)
    (res : Residence) (room : Room)
    (hres : (st.residences.filter
      (fun r => r.roomId == some roomId && r.studentId == studentId)).head? = some res)
    (hroom : findRoom st roomId = some room) :
    (deallocateStudent st roomId studentId).1.isOk = true
    ∧ findRoom (deallocateStudent st roomId studentId).2 roomId =
        some { room with currentOccupancy := max 0 (room.currentOccupancy - 1),
                         status := "available" } := by
  unfold findRoom findRoomIn at hroom
  have hid := List.find?_some hroom
  unfold deallocateStudent findRoom findRoomIn
  dsimp only
  rw [hres]
  dsimp only
  rw [hroom]
  dsimp only [Resp.isOk]
  refine ⟨rfl, ?_⟩
  have := findRoomIn_setRoomFields st.rooms roomId roomId
    (max 0 (room.currentOccupancy - 1)) "available"
  unfold findRoomIn at this
  rw [this, hroom]
  simp [hid]
  intro hne
  exact absurd (by simpa using hid) hne

/-- C10: a direct residence creation for a student who already has a
residence row hits the UNIQUE constraint on `residences.student_id`; the
route surfaces a generic 500 `Internal server error` and the state —
including the existing residence — is unchanged. -/
theorem c10_duplicate_residence_rejected (st : State) (now : Nat) (sid : Nat) (rt : String)
    (hostelId roomId : Option Nat) (bed o1 o2 o3 : Option String)
    (hsid : sid ≠ 0) (hrt : rt ≠ "")
    (hdup : st.residences.any (fun r => r.studentId == sid) = true) :
    createResidence st now (some sid) (some rt) hostelId roomId bed o1 o2 o3 =
      (Resp.err 500 "Internal server error", st) := by
  have h1 : truthyNat (some sid) = true := by simpa [truthyNat] using hsid
  have h2 : truthyStr (some rt) = true := by simpa [truthyStr] using hrt
  unfold createResidence
  simp [h1, h2, hdup]

/-- Witness for C9 at a concrete input: deallocating student 1 from the
occupied maintenance room drops the occupancy to 0 and rewrites the status
to `available`. -/
theorem c9_witness :
    (deallocateStudent stDealloc 1 1).1.isOk = true
    ∧ findRoom (deallocateStudent stDealloc 1 1).2 1 =
        some { roomMaintOcc with currentOccupancy := max 0 (roomMaintOcc.currentOccupancy - 1),
                                 status := "available" } :=
  c9_dealloc_forces_available stDealloc 1 1 resA roomMaintOcc (by decide) (by decide)

/-- Witness for C10 at a concrete input: student 1 already resides in
room 1, so a direct residence creation for them answers 500 and leaves the
state unchanged. -/
theorem c10_witness :
    createResidence stDealloc 7 (some 1) (some "off-campus") none none none none none none =
      (Resp.err 500 "Internal server error", stDealloc) :=
  c10_duplicate_residence_rejected stDealloc 7 1 "off-campus" none none none none none none
    (by decide) (by decide) (by decide)

/-! ## Amended claims -/

/-- C8 amended: `createRoom` never validates capacity — every call succeeds
(there is no ValidationError path), storing whatever capacity was supplied
(default 2 when missing); the created room always has `currentOccupancy = 0`
and `status = "available"`. -/
theorem c8_create_room_unvalidated (st : State) (hostelId : Nat) (roomNumber : String)
    (floor capacity : Option Int) (roomType amenities : Option String) :
    (createRoom st hostelId roomNumber floor capacity roomType amenities).1.isOk = true
    ∧ ((createRoom st hostelId roomNumber floor capacity roomType amenities).1.getVal?).map
        Room.currentOccupancy = some 0
    ∧ ((createRoom st hostelId roomNumber floor capacity roomType amenities).1.getVal?).map
        Room.status = some "available"
    ∧ ((createRoom st hostelId roomNumber floor capacity roomType amenities).1.getVal?).map
        Room.capacity = some (capacity.getD 2) :=
  ⟨rfl, rfl, rfl, rfl⟩

/-- C4 amended: direct allocation fails with `Room is full` exactly on the
occupancy test `currentOccupancy ≥ capacity` (leaving the state unchanged);
the room's `maintenance` status is never consulted, so a maintenance room
with free beds is not rejected by this check. -/
theorem c4_room_full_check (st : State) (now roomId studentId : Nat) (bed : Option String)
    (room : Room) (hroom : findRoom st roomId = some room) :
    (room.capacity ≤ room.currentOccupancy →
      allocateStudent st now roomId studentId bed = (Resp.err 400 "Room is full", st))
    ∧ (room.currentOccupancy < room.capacity →
      (allocateStudent st now roomId studentId bed).1 ≠ Resp.err 400 "Room is full") := by
  unfold allocateStudent
  rw [hroom]
  dsimp only
  constructor
  · intro hfull
    rw [if_pos hfull]
  · intro hlt
    rw [if_neg (not_le.mpr hlt)]
    split
    · simp
    · split
      · simp
      · split
        · simp
        · split
          · simp
          · simp

/-- C5 amended: with all earlier checks passing, the allocation fails with
`Gender mismatch` (state unchanged) precisely when lowercasing the
student's declared gender does not give exactly the hostel's stored
`gender` string; agreement up to case is not sufficient when the stored
restriction contains an uppercase letter. -/
theorem c5_gender_check (st : State) (now roomId studentId : Nat) (bed : Option String)
    (room : Room) (student : Student) (hostel : Hostel)
    (hroom : findRoom st roomId = some room)
    (hocc : room.currentOccupancy < room.capacity)
    (hnores : findResidenceByStudent st studentId = none)
    (hstudent : findStudent st studentId = some student)
    (hhostel : findHostel st room.hostelId = some hostel) :
    allocateStudent st now roomId studentId bed = (Resp.err 400 "Gender mismatch", st)
      ↔ genderMatches student hostel = false := by
  unfold allocateStudent
  rw [hroom]
  dsimp only
  rw [if_neg (not_le.mpr hocc), hnores, hstudent, hhostel]
  dsimp only
  constructor
  · intro h
    cases hg : genderMatches student hostel
    · rfl
    · rw [hg] at h
      simp at h
  · intro h
    rw [h]
    simp

/-- Witness for C4 at a concrete input: room R1 of the transfer scenario is
at capacity, so a direct allocation of a second student answers exactly
`Room is full` with the state unchanged. -/
theorem c4_witness :
    allocateStudent stTransferFull 50 1 2 none = (Resp.err 400 "Room is full", stTransferFull) :=
  (c4_room_full_check stTransferFull 50 1 2 none roomR1 (by decide)).1 (by decide)

/-- Witness for C5 at a concrete input: in the mixed-case scenario the
allocation fails with `Gender mismatch` although student and hostel gender
agree up to case. -/
theorem c5_witness :
    allocateStudent stMixedCase 10 1 1 none = (Resp.err 400 "Gender mismatch", stMixedCase)
      ↔ genderMatches studentM hostelMixedCase = false :=
  c5_gender_check stMixedCase 10 1 1 none roomFree studentM hostelMixedCase
    (by decide) (by decide) (by decide) (by decide) (by decide)

/-- C2 amended: neither decide route checks the booking's current status.
Given any booking row (pending or already decided) and a valid decision
payload, the `hostels.ts` route answers 200 with the overwritten booking,
and the `residences.ts` route does the same; re-approval re-runs the
approval side effects (shown concretely in the counterexample). -/
theorem c2_decide_unguarded (st : State) (now bookingId : Nat) (s : String)
    (ab : Nat) (note : Option String) (b : Booking)
    (hb : findBooking st bookingId = some b)
    (hs : s = "approved" ∨ s = "rejected") (hab : ab ≠ 0) :
    (approveBooking st now bookingId (some s) (some ab) note).1 =
      Resp.ok 200 { b with status := s, approvedBy := some ab,
                           approvedAt := some now, note := jsOr note b.note }
    ∧ (approveBookingResidences st now bookingId (some s) (some ab) note).1 =
      Resp.ok 200 { b with status := s, approvedBy := some ab, approvedAt := some now,
                           note := match note with | none => b.note | some t => some t } := by
  have hcond : (s == "approved" || s == "rejected") = true := by
    rcases hs with h | h <;> simp [h]
  have hsne : (s != "") = true := by
    rcases hs with h | h <;> simp [h]
  constructor
  · unfold approveBooking
    dsimp only
    rw [hb, if_neg (by simp [hcond])]
    dsimp only [jsSetOptNat]
    split
    · rfl
    · rfl
  · unfold approveBookingResidences
    have ht : (truthyStr (some s) && truthyNat (some ab)) = true := by
      simp [truthyStr, truthyNat, hsne]
      simpa using hab
    rw [if_neg (by simp [ht]), hb]
    dsimp only [jsSetOptNat]
    rfl

/-- C7 amended: a successful direct allocation creates the residence row
and increments the room's occupancy in the same atomic step, and the
room's status is recomputed unconditionally — `full` when the new
occupancy reaches capacity and `available` otherwise, overwriting even a
`maintenance` status. -/
theorem c7_alloc_success_effects (st : State) (now roomId studentId : Nat) (bed : Option String)
    (room : Room) (student : Student) (hostel : Hostel)
    (hroom : findRoom st roomId = some room)
    (hocc : room.currentOccupancy < room.capacity)
    (hnores : findResidenceByStudent st studentId = none)
    (hstudent : findStudent st studentId = some student)
    (hhostel : findHostel st room.hostelId = some hostel)
    (hg : genderMatches student hostel = true) :
    let newRes : Residence :=
      { id := st.nextResidenceId, studentId := studentId, residenceType := "on-campus",
        hostelId := some room.hostelId, roomId := some roomId,
        bedNumber := some (bed.getD (if room.currentOccupancy == 0 then "Bed A" else "Bed B")),
        offCampusHostelName := none, offCampusRoomNumber := none, offCampusArea := none,
        allocated := true, allocatedAt := some now }
    (allocateStudent st now roomId studentId bed).1 = Resp.ok 201 newRes
    ∧ (allocateStudent st now roomId studentId bed).2.residences = st.residences ++ [newRes]
    ∧ findRoom (allocateStudent st now roomId studentId bed).2 roomId =
        some { room with
                currentOccupancy := room.currentOccupancy + 1,
                status := if room.capacity ≤ room.currentOccupancy + 1
                          then "full" else "available" } := by
  intro newRes
  unfold findRoom findRoomIn at hroom
  have hid := List.find?_some hroom
  unfold allocateStudent findRoom findRoomIn
  rw [hroom]
  dsimp only
  rw [if_neg (not_le.mpr hocc), hnores, hstudent, hhostel]
  dsimp only
  rw [if_neg (by simp [hg])]
  refine ⟨rfl, rfl, ?_⟩
  have := findRoomIn_setRoomFields st.rooms roomId roomId (room.currentOccupancy + 1)
    (if room.capacity ≤ room.currentOccupancy + 1 then "full" else "available")
  unfold findRoomIn at this
  dsimp only
  rw [this, hroom]
  simp [hid]
  intro hne
  exact absurd (by simpa using hid) hne

/-- Witness for C2 at a concrete input: booking 1 is already `approved`,
yet both decide routes accept a second decision and overwrite it. -/
theorem c2_witness :
    (approveBooking stAfterFirstApproval 200 1 (some "rejected") (some 9) none).1 =
      Resp.ok 200 { bookingNewApproved with status := "rejected", approvedBy := some 9,
                                            approvedAt := some 200 }
    ∧ (approveBookingResidences stAfterFirstApproval 200 1 (some "rejected") (some 9) none).1 =
      Resp.ok 200 { bookingNewApproved with status := "rejected", approvedBy := some 9,
                                            approvedAt := some 200 } :=
  c2_decide_unguarded stAfterFirstApproval 200 1 "rejected" 9 none bookingNewApproved
    (by decide) (Or.inr rfl) (by decide)

/-- Witness for C7 at a concrete input: allocating student 1 into the empty
maintenance room succeeds, appends the residence, sets occupancy to 1 and
rewrites the status by the unconditional formula (here `available`). -/
theorem c7_witness :
    (allocateStudent stMaintenance 10 1 1 none).1 = Resp.ok 201
      { id := 1, studentId := 1, residenceType := "on-campus", hostelId := some 1,
        roomId := some 1, bedNumber := some "Bed A", offCampusHostelName := none,
        offCampusRoomNumber := none, offCampusArea := none, allocated := true,
        allocatedAt := some 10 }
    ∧ (allocateStudent stMaintenance 10 1 1 none).2.residences =
        stMaintenance.residences ++
          [{ id := 1, studentId := 1, residenceType := "on-campus", hostelId := some 1,
             roomId := some 1, bedNumber := some "Bed A", offCampusHostelName := none,
             offCampusRoomNumber := none, offCampusArea := none, allocated := true,
             allocatedAt := some 10 }]
    ∧ findRoom (allocateStudent stMaintenance 10 1 1 none).2 1 =
        some { roomMaint with
                currentOccupancy := roomMaint.currentOccupancy + 1,
                status := if roomMaint.capacity ≤ roomMaint.currentOccupancy + 1
                          then "full" else "available" } :=
  c7_alloc_success_effects stMaintenance 10 1 1 none roomMaint studentA hostelMale
    (by decide) (by decide) (by decide) (by decide) (by decide) (by decide)

/-- C1 amended: approving a transfer into a full on-campus room succeeds —
no capacity check runs on the approval path.  The decision is recorded as
`approved`, the old room's occupancy is decremented (clamped at 0), the
residence is rewritten to the requested room, and the requested room's
occupancy is incremented past its capacity. -/
theorem c1_approval_into_full_room (st : State) (now bid nr oldId : Nat)
    (ab : Option Nat) (note : Option String)
    (b : Booking) (res : Residence) (oldRoom newRoom : Room)
    (hb : findBooking st bid = some b)
    (hty : b.requestType = "transfer")
    (hreq : b.requestedRoomId = some nr) (hnr : nr ≠ 0)
    (hres : findResidenceByStudent st b.studentId = some res)
    (hresroom : res.roomId = some oldId) (hold0 : oldId ≠ 0)
    (hne : nr ≠ oldId)
    (hOld : findRoom st oldId = some oldRoom)
    (hNew : findRoom st nr = some newRoom)
    (hfull : newRoom.capacity ≤ newRoom.currentOccupancy) :
    (approveBooking st now bid (some "approved") ab note).1.isOk = true
    ∧ (findBooking (approveBooking st now bid (some "approved") ab note).2 bid).map
        Booking.status = some "approved"
    ∧ (findResidenceByStudent (approveBooking st now bid (some "approved") ab note).2
        b.studentId).map Residence.roomId = some (some nr)
    ∧ (findRoom (approveBooking st now bid (some "approved") ab note).2 oldId).map
        Room.currentOccupancy = some (max 0 (oldRoom.currentOccupancy - 1))
    ∧ findRoom (approveBooking st now bid (some "approved") ab note).2 nr =
        some { newRoom with currentOccupancy := newRoom.currentOccupancy + 1,
                            status := "full" }
    ∧ newRoom.capacity < newRoom.currentOccupancy + 1 := by
  unfold findRoom findRoomIn at hOld hNew
  unfold findBooking findBookingIn at hb
  unfold findResidenceByStudent findResidenceIn at hres
  have hidOld := List.find?_some hOld
  have hidNew := List.find?_some hNew
  have hidB := List.find?_some hb
  have hidR := List.find?_some hres
  have hidNew' : newRoom.id = nr := by simpa using hidNew
  have hidOld' : oldRoom.id = oldId := by simpa using hidOld
  unfold approveBooking findBooking findBookingIn
  dsimp only
  rw [if_neg (by simp), hb]
  dsimp only
  rw [if_pos (by decide : (("approved" == "approved") : Bool) = true)]
  unfold applyApprovalEffects findResidenceByStudent findResidenceIn
  dsimp only
  rw [hres]
  dsimp only [Option.bind]
  rw [hresroom, hreq]
  dsimp only [Option.getD]
  rw [if_pos (show truthyNat (some nr) = true by simp [truthyNat, hnr])]
  rw [if_pos (show (b.requestType == "transfer" && truthyNat (some oldId)) = true by
        simp [hty, truthyNat, hold0])]
  unfold decOldRoomUpdate findRoomIn
  dsimp only
  rw [hOld]
  dsimp only
  have hmid := findRoomIn_setRoomFields st.rooms oldId nr
    (max 0 (oldRoom.currentOccupancy - 1))
    (if oldRoom.currentOccupancy - 1 < oldRoom.capacity then "available" else oldRoom.status)
  unfold findRoomIn at hmid
  unfold findRoom findRoomIn
  dsimp only
  rw [hmid, hNew]
  dsimp only [Option.map_some']
  have hno : ¬ ((newRoom.id == oldId) = true) := by simp [hidNew', hne]
  rw [if_neg hno]
  rw [if_pos (show newRoom.capacity ≤ newRoom.currentOccupancy + 1 by omega)]
  refine ⟨rfl, ?_, ?_, ?_, ?_, by omega⟩
  · have hfb := findBookingIn_setBookingDecision st.bookings bid bid "approved" ab (some now)
      (some (jsOr note b.note))
    unfold findBookingIn at hfb
    rw [hfb, hb]
    have hidB2 : b.id = bid := by simpa using hidB
    simp [hidB2]
  · have hfr := findResidenceIn_setResidenceOnCampus st.residences b.studentId b.studentId
      b.requestedHostelId (some nr) b.requestedBed now
    unfold findResidenceIn at hfr
    rw [hfr, hres]
    have hidR2 : res.studentId = b.studentId := by simpa using hidR
    simp [hidR2]
  · have h1 := findRoomIn_setRoomFields
      (setRoomFields st.rooms oldId (max 0 (oldRoom.currentOccupancy - 1))
        (if oldRoom.currentOccupancy - 1 < oldRoom.capacity then "available" else oldRoom.status))
      nr oldId (newRoom.currentOccupancy + 1) "full"
    have h2 := findRoomIn_setRoomFields st.rooms oldId oldId
      (max 0 (oldRoom.currentOccupancy - 1))
      (if oldRoom.currentOccupancy - 1 < oldRoom.capacity then "available" else oldRoom.status)
    unfold findRoomIn at h1 h2
    rw [h1, h2, hOld]
    simp only [Option.map_some']
    rw [if_pos hidOld]
    simp [hidOld', hne.symm]
  · have h1 := findRoomIn_setRoomFields
      (setRoomFields st.rooms oldId (max 0 (oldRoom.currentOccupancy - 1))
        (if oldRoom.currentOccupancy - 1 < oldRoom.capacity then "available" else oldRoom.status))
      nr nr (newRoom.currentOccupancy + 1) "full"
    have h2 := findRoomIn_setRoomFields st.rooms oldId nr
      (max 0 (oldRoom.currentOccupancy - 1))
      (if oldRoom.currentOccupancy - 1 < oldRoom.capacity then "available" else oldRoom.status)
    unfold findRoomIn at h1 h2
    rw [h1, h2, hNew]
    simp only [Option.map_some']
    rw [if_neg hno, if_pos hidNew]

/-- Witness for C1 at the spec's own scenario: approving the transfer into
full room R3 succeeds, records the decision, moves the residence, and
pushes R3 to occupancy 2 > capacity 1. -/
theorem c1_witness :
    (approveBooking stTransferFull 100 1 (some "approved") (some 9) none).1.isOk = true
    ∧ (findBooking (approveBooking stTransferFull 100 1 (some "approved") (some 9) none).2 1).map
        Booking.status = some "approved"
    ∧ (findResidenceByStudent (approveBooking stTransferFull 100 1 (some "approved")
        (some 9) none).2 bookingTransfer.studentId).map Residence.roomId = some (some 3)
    ∧ (findRoom (approveBooking stTransferFull 100 1 (some "approved") (some 9) none).2 1).map
        Room.currentOccupancy = some (max 0 (roomR1.currentOccupancy - 1))
    ∧ findRoom (approveBooking stTransferFull 100 1 (some "approved") (some 9) none).2 3 =
        some { roomR3 with currentOccupancy := roomR3.currentOccupancy + 1, status := "full" }
    ∧ roomR3.capacity < roomR3.currentOccupancy + 1 :=
  c1_approval_into_full_room stTransferFull 100 1 3 1 (some 9) none bookingTransfer resA
    roomR1 roomR3 (by decide) (by decide) (by decide) (by decide) (by decide) (by decide)
    (by decide) (by decide) (by decide) (by decide) (by decide)

/-! ## Occupancy bound preservation -/

theorem nonnegOcc_applyApprovalEffects {st : State} {now : Nat} {b : Booking}
    (h : nonnegOcc st.rooms) : nonnegOcc (applyApprovalEffects st now b).rooms := by
  unfold applyApprovalEffects
  dsimp only
  by_cases h1 : truthyNat b.requestedRoomId = true
  · rw [if_pos h1]
    by_cases h2 : (b.requestType == "transfer" &&
        truthyNat ((findResidenceByStudent st b.studentId).bind Residence.roomId)) = true
    · rw [if_pos h2]
      dsimp only
      split
      · exact nonnegOcc_decOldRoomUpdate h
      · rename_i newRoom hnew
        unfold findRoom findRoomIn at hnew
        dsimp only at hnew
        apply nonnegOcc_setRoomFields (nonnegOcc_decOldRoomUpdate h)
        have hmem := List.mem_of_find?_eq_some hnew
        have := nonnegOcc_decOldRoomUpdate h newRoom hmem
        omega
    · rw [if_neg h2]
      split
      · exact h
      · rename_i newRoom hnew
        unfold findRoom findRoomIn at hnew
        dsimp only at hnew
        apply nonnegOcc_setRoomFields h
        have hmem := List.mem_of_find?_eq_some hnew
        have := h newRoom hmem
        omega
  · rw [if_neg h1]
    dsimp only
    by_cases h2 : truthyNat ((findResidenceByStudent st b.studentId).bind Residence.roomId) = true
    · rw [if_pos h2]
      exact nonnegOcc_decOldRoomUpdate h
    · rw [if_neg h2]
      exact h

theorem nonnegOcc_allocateStudent {st : State} {now roomId studentId : Nat}
    {bed : Option String} (h : nonnegOcc st.rooms) :
    nonnegOcc (allocateStudent st now roomId studentId bed).2.rooms := by
  unfold allocateStudent
  split
  · exact h
  · rename_i room hroom
    split
    · exact h
    · split
      · exact h
      · split
        · exact h
        · split
          · exact h
          · split
            · exact h
            · apply nonnegOcc_setRoomFields h
              unfold findRoom findRoomIn at hroom
              have hmem := List.mem_of_find?_eq_some hroom
              have := h room hmem
              omega

theorem nonnegOcc_deallocateStudent {st : State} {roomId studentId : Nat}
    (h : nonnegOcc st.rooms) :
    nonnegOcc (deallocateStudent st roomId studentId).2.rooms := by
  unfold deallocateStudent
  dsimp only
  split
  · exact h
  · split
    · exact h
    · exact nonnegOcc_setRoomFields h (le_max_left 0 _)

theorem nonnegOcc_approveBooking {st : State} {now bookingId : Nat} {s : Option String}
    {ab : Option Nat} {note : Option String} (h : nonnegOcc st.rooms) :
    nonnegOcc (approveBooking st now bookingId s ab note).2.rooms := by
  unfold approveBooking
  split
  · exact h
  · split
    · exact h
    · split
      · exact h
      · dsimp only
        split
        · exact nonnegOcc_applyApprovalEffects h
        · exact h

theorem inBounds_allocateStudent {st : State} {now roomId studentId : Nat}
    {bed : Option String} (h : occupancyInBounds st) (hn : roomIdsNodup st.rooms) :
    occupancyInBounds (allocateStudent st now roomId studentId bed).2 := by
  unfold allocateStudent
  split
  · exact h
  · rename_i room hroom
    split
    · exact h
    · rename_i hnotfull
      split
      · exact h
      · split
        · exact h
        · split
          · exact h
          · split
            · exact h
            · intro r hr
              obtain ⟨r0, hr0, rfl⟩ := mem_setRoomFields hr
              unfold findRoom findRoomIn at hroom
              have hmem := List.mem_of_find?_eq_some hroom
              have hroomid := List.find?_some hroom
              by_cases hcase : (r0.id == roomId) = true
              · have hr0room : r0 = room := by
                  apply eq_of_mem_roomIds_nodup hn hr0 hmem
                  have h1 : r0.id = roomId := by simpa using hcase
                  have h2 : room.id = roomId := by simpa using hroomid
                  rw [h1, h2]
                subst hr0room
                have hb := h r0 hr0
                simp only [hcase, if_true]
                constructor
                · dsimp only
                  omega
                · dsimp only
                  omega
              · simp only [hcase]
                rw [if_neg (by simpa using hcase)]
                exact h r0 hr0

theorem inBounds_deallocateStudent {st : State} {roomId studentId : Nat}
    (h : occupancyInBounds st) (hn : roomIdsNodup st.rooms) :
    occupancyInBounds (deallocateStudent st roomId studentId).2 := by
  unfold deallocateStudent
  dsimp only
  split
  · exact h
  · split
    · exact fun r hr => h r hr
    · rename_i room hroom
      intro r hr
      obtain ⟨r0, hr0, rfl⟩ := mem_setRoomFields hr
      unfold findRoom findRoomIn at hroom
      dsimp only at hroom
      have hmem := List.mem_of_find?_eq_some hroom
      by_cases hcase : (r0.id == roomId) = true
      · have hroomid := List.find?_some hroom
        have hr0room : r0 = room := by
          apply eq_of_mem_roomIds_nodup hn hr0 hmem
          have h1 : r0.id = roomId := by simpa using hcase
          have h2 : room.id = roomId := by simpa using hroomid
          rw [h1, h2]
        subst hr0room
        have hb := h r0 hr0
        simp only [hcase, if_true]
        constructor
        · dsimp only
          exact le_max_left 0 _
        · dsimp only
          apply max_le
          · omega
          · omega
      · simp only [hcase]
        rw [if_neg (by simpa using hcase)]
        exact h r0 hr0

/-- C3 amended: occupancy can never go below 0 (all decrements are clamped
with `Math.max(0, ...)`), and direct allocation and deallocation also keep
`currentOccupancy ≤ capacity`; but the booking-approval path carries no
capacity check, so approval can push a room past its capacity (see the
counterexample). -/
theorem c3_occupancy_bounds (st : State) (now roomId studentId bookingId : Nat)
    (bed : Option String) (s : Option String) (ab : Option Nat) (note : Option String) :
    (nonnegOcc st.rooms →
        nonnegOcc (allocateStudent st now roomId studentId bed).2.rooms
      ∧ nonnegOcc (deallocateStudent st roomId studentId).2.rooms
      ∧ nonnegOcc (approveBooking st now bookingId s ab note).2.rooms)
    ∧ (occupancyInBounds st → roomIdsNodup st.rooms →
        occupancyInBounds (allocateStudent st now roomId studentId bed).2
      ∧ occupancyInBounds (deallocateStudent st roomId studentId).2) := by
  constructor
  · intro h
    exact ⟨nonnegOcc_allocateStudent h, nonnegOcc_deallocateStudent h,
      nonnegOcc_approveBooking h⟩
  · intro h hn
    exact ⟨inBounds_allocateStudent h hn, inBounds_deallocateStudent h hn⟩

/-- Witness for C3 at a concrete input: the bound-preservation clauses of
the amended claim, instantiated at the occupied-maintenance-room state. -/
theorem c3_witness :
    (nonnegOcc (allocateStudent stDealloc 50 1 2 none).2.rooms
      ∧ nonnegOcc (deallocateStudent stDealloc 1 2).2.rooms
      ∧ nonnegOcc (approveBooking stDealloc 50 1 (some "approved") (some 9) none).2.rooms)
    ∧ (occupancyInBounds (allocateStudent stDealloc 50 1 2 none).2
      ∧ occupancyInBounds (deallocateStudent stDealloc 1 2).2) :=
  ⟨(c3_occupancy_bounds stDealloc 50 1 2 1 none (some "approved") (some 9) none).1
      (by unfold nonnegOcc; decide),
   (c3_occupancy_bounds stDealloc 50 1 2 1 none (some "approved") (some 9) none).2
      (by unfold occupancyInBounds; decide) (by unfold roomIdsNodup; decide)⟩

/-! ## Occupancy/residence-count correspondence -/

theorem onCampusCount_append (rs : List Residence) (x : Residence) (i : Nat) :
    onCampusCount (rs ++ [x]) i =
      onCampusCount rs i +
        (if (x.residenceType == "on-campus" && x.roomId == some i) = true then 1 else 0) := by
  unfold onCampusCount
  rw [List.filter_append]
  by_cases hx : (x.residenceType == "on-campus" && x.roomId == some i) = true
  · simp [hx]
  · simp [hx]

theorem occupancyMatches_allocateStudent {st : State} {now roomId studentId : Nat}
    {bed : Option String} (h : occupancyMatches st) (hn : roomIdsNodup st.rooms) :
    occupancyMatches (allocateStudent st now roomId studentId bed).2 := by
  unfold allocateStudent
  split
  · exact h
  · rename_i room hroom
    split
    · exact h
    · split
      · exact h
      · split
        · exact h
        · split
          · exact h
          · split
            · exact h
            · intro r hr
              obtain ⟨r0, hr0, rfl⟩ := mem_setRoomFields hr
              unfold findRoom findRoomIn at hroom
              have hmem := List.mem_of_find?_eq_some hroom
              have hroomid := List.find?_some hroom
              have hcount := h r0 hr0
              have hcountroom := h room hmem
              by_cases hcase : (r0.id == roomId) = true
              · have hr0room : r0 = room := by
                  apply eq_of_mem_roomIds_nodup hn hr0 hmem
                  have e1 : r0.id = roomId := by simpa using hcase
                  have e2 : room.id = roomId := by simpa using hroomid
                  rw [e1, e2]
                subst hr0room
                have e1 : r0.id = roomId := by simpa using hcase
                simp only [hcase, if_true]
                rw [onCampusCount_append]
                rw [if_pos (by simp [e1])]
                omega
              · have e1 : r0.id ≠ roomId := by simpa using hcase
                simp only [hcase]
                rw [if_neg (by simpa using hcase)]
                rw [onCampusCount_append]
                rw [if_neg (by simp [e1.symm])]
                omega

/-- C6 amended: the direct allocation path keeps each room cached
`currentOccupancy` equal to the number of on-campus residences referencing
it, but the direct residence-creation and residence-deletion routes never
touch room rows at all, so they break the correspondence whenever they add
or remove an on-campus residence (see the counterexample). -/
theorem c6_occupancy_sync (st : State) (now roomId studentId delSid : Nat)
    (bed : Option String) (sid : Option Nat) (rt : Option String) (hId rId : Option Nat)
    (b2 o1 o2 o3 : Option String) :
    ((createResidence st now sid rt hId rId b2 o1 o2 o3).2.rooms = st.rooms)
    ∧ ((deleteResidence st delSid).2.rooms = st.rooms)
    ∧ (occupancyMatches st → roomIdsNodup st.rooms →
        occupancyMatches (allocateStudent st now roomId studentId bed).2) := by
  refine ⟨?_, ?_, fun h hn => occupancyMatches_allocateStudent h hn⟩
  · unfold createResidence
    dsimp only
    split
    · rfl
    · split
      · rfl
      · rfl
  · unfold deleteResidence
    split
    · rfl
    · rfl

/-- Witness for C6 at a concrete input: the residence CRUD routes leave the
rooms table untouched, and a successful direct allocation re-establishes
the count correspondence on the occupied-maintenance-room state. -/
theorem c6_witness :
    ((createResidence stDealloc 7 (some 2) (some "off-campus") none none
        none none none none).2.rooms = stDealloc.rooms)
    ∧ ((deleteResidence stDealloc 1).2.rooms = stDealloc.rooms)
    ∧ occupancyMatches (allocateStudent stDealloc 50 1 2 none).2 := by
  have hfull := c6_occupancy_sync stDealloc 50 1 2 1 none (some 2) (some "off-campus")
    none none none none none none
  exact ⟨hfull.1, hfull.2.1,
    hfull.2.2 (by unfold occupancyMatches; decide) (by unfold roomIdsNodup; decide)⟩

end StudentDB
